import Mathlib

/-!
Verification of the consul-failover agent (src/consulfailover/__init__.py).

The development shallowly embeds the agent's control loop and its coordinator
interactions.  Coordinator state observed by one tick is packaged in an `Env`
record; each embedded operation returns the ordered list of observable effects
(`Action`s) it performs together with its result, so that temporal claims about
one tick become statements about that trace.  Fallible Python code (explicit
`raise` or uncaught exceptions) is embedded with `Except`.
-/

deriving instance DecidableEq for Except

namespace ConsulFailover

/-- Observable effects performed by the agent against the coordinator, the
filesystem, the application handler and the clock, in program order. -/
inductive Action where
  | sleep (seconds : Nat)
  | agentChecks
  | checkDisableFlag
  | getTag
  | sessionList
  | sessionCreate
  | kvAcquire (key : String) (sid : String)
  | kvGet (key : String)
  | sessionInfo (sid : String)
  | setTag (tag : String)
  | ensureMaster
  | ensureSlave (node : String)
  | agentServices
  | sessionDestroy (sid : String)
  | serviceDeregister
  | logMsg (msg : String)
  deriving DecidableEq, Repr

/-- True iff the action is a KV acquire attempt (`consul.kv.put` with `acquire=`). -/
def Action.isKvAcquire : Action → Bool
  | .kvAcquire _ _ => true
  | _ => false

/-- True iff the action is a session creation call (`consul.session.create`). -/
def Action.isSessionCreate : Action → Bool
  | .sessionCreate => true
  | _ => false

/-- True iff the action is a session listing call (`consul.session.node`). -/
def Action.isSessionList : Action → Bool
  | .sessionList => true
  | _ => false

/-- True iff the action is a call to the handler's `ensure_master`. -/
def Action.isEnsureMaster : Action → Bool
  | .ensureMaster => true
  | _ => false

/-- True iff the action is a call to the handler's `ensure_slave`. -/
def Action.isEnsureSlave : Action → Bool
  | .ensureSlave _ => true
  | _ => false

/-- True iff the action is a `set_tag` call (service re-registration with a tag). -/
def Action.isSetTag : Action → Bool
  | .setTag _ => true
  | _ => false

/-- True iff the action is a session destruction call (`consul.session.destroy`). -/
def Action.isSessionDestroy : Action → Bool
  | .sessionDestroy _ => true
  | _ => false

/-- True iff the action is a service deregistration call. -/
def Action.isServiceDeregister : Action → Bool
  | .serviceDeregister => true
  | _ => false

/-- A session as listed by `consul.session.node`: its `Name` and `ID` fields. -/
structure SessionEntry where
  name : String
  id : String
  deriving DecidableEq, Repr

/-- Lookup of a check by name in the agent's check map (`checks.get(name)`). -/
def lookupCheck (checks : List (String × String)) (name : String) : Option String :=
  (checks.find? (fun c => c.1 == name)).map (fun c => c.2)

/-- Embedding of `ConsulHandler.is_healthy`: the agent check map is modelled as an
association list from check name to the check's `Status` string.  An empty map is
unhealthy, a missing `service:<cluster>` check is unhealthy, and otherwise only
the status `passing` maps to healthy. -/
def is_healthy (checks : List (String × String)) (cluster_name : String) : Bool :=
  if checks.isEmpty then false
  else
    match lookupCheck checks ("service:" ++ cluster_name) with
    | none => false
    | some status => status == "passing"

/-- Embedding of `ConsulHandler.get_existing_session`: filter the sessions on this
node by `Name == cluster_name`; raise when the filtered list is non-empty with
length other than one; return the first ID when non-empty; otherwise `None`. -/
def get_existing_session (node_sessions : List SessionEntry) (cluster_name : String) :
    Except String (Option String) :=
  let leader_sessions := node_sessions.filter (fun x => x.name == cluster_name)
  if !leader_sessions.isEmpty && leader_sessions.length != 1 then
    Except.error ("Multiple " ++ cluster_name ++ " leader sessions found")
  else
    match leader_sessions with
    | [] => Except.ok none
    | s :: _ => Except.ok (some s.id)

/-- First successful outcome of the session-creation retry loop in
`ConsulHandler.get_session`; `none` means every modelled attempt failed and the
loop is still retrying. -/
def firstSuccess : List (Except String String) → Option String
  | [] => none
  | Except.ok s :: _ => some s
  | Except.error _ :: rest => firstSuccess rest

/-- Embedding of `ConsulHandler.get_session`.  The outcomes of successive
`consul.session.create` calls are supplied as `create_attempts` (an `Except.error`
is a caught `ConsulException`).  The existing session is returned when present;
an exception from `get_existing_session` propagates; otherwise the loop returns
the first successful creation, and `Except.ok none` stands for a loop that is
still retrying after all modelled attempts failed. -/
def get_session (node_sessions : List SessionEntry) (cluster_name : String)
    (create_attempts : List (Except String String)) : Except String (Option String) :=
  match get_existing_session node_sessions cluster_name with
  | Except.error e => Except.error e
  | Except.ok (some s) => Except.ok (some s)
  | Except.ok none => Except.ok (firstSuccess create_attempts)

/-- Effect trace of the session-creation retry loop: each failed attempt logs the
error and sleeps 2 seconds before retrying; the loop stops at the first success. -/
def get_session_trace : List (Except String String) → List Action
  | [] => []
  | Except.ok _ :: _ => [Action.sessionCreate]
  | Except.error e :: rest =>
      Action.sessionCreate :: Action.logMsg ("Error creating session: " ++ e) ::
        Action.sleep 2 :: get_session_trace rest

/-- Effects contributed to the retry-loop trace by one failed creation attempt:
the create call, the error log, and the 2-second backoff sleep.  A successful
attempt ends the loop and contributes nothing here. -/
def failTraceOf : Except String String → List Action
  | Except.error e =>
      [Action.sessionCreate, Action.logMsg ("Error creating session: " ++ e), Action.sleep 2]
  | Except.ok _ => []

/-- Coordinator and filesystem state observed by one tick of `ConsulHandler.monitor`. -/
structure Env where
  cluster_name : String
  checks : List (String × String)
  disable_flag : Bool
  catalog_tag : Option String
  node_sessions : List SessionEntry
  create_attempts : List (Except String String)
  acquire_ok : Bool
  lock_session : Option String
  session_node : String → Option String

/-- Outcome of one tick of the `monitor` loop: the loop body ran to its `continue`
or to the end (`completed`), an uncaught exception propagated out of the loop
(`raised`), or the tick is still inside the session-creation retry loop
(`retryingSession`). -/
inductive TickResult where
  | completed
  | raised (msg : String)
  | retryingSession
  deriving DecidableEq, Repr

/-- The leader lock key `lock/<cluster>/leader`. -/
def lockKey (cluster_name : String) : String := "lock/" ++ cluster_name ++ "/leader"

/-- Embedding of the acquire-and-branch part of a `monitor` tick, entered with a
session id in hand: attempt the KV acquire; on success set tag `master` then call
`ensure_master`; on failure run `get_leader` (KV read, then session resolution)
and either set tag `slave` then call `ensure_slave`, log and continue when the
lock has no holding session, or raise when the holder cannot be resolved. -/
def tickAcquirePhase (env : Env) (t : List Action) (session : String) :
    List Action × TickResult :=
  let t1 := t ++ [Action.kvAcquire (lockKey env.cluster_name) session]
  if env.acquire_ok then
    (t1 ++ [Action.setTag "master", Action.ensureMaster], TickResult.completed)
  else
    let t2 := t1 ++ [Action.kvGet (lockKey env.cluster_name)]
    match env.lock_session with
    | none =>
        (t2 ++ [Action.logMsg "Unable to lock and unable to determine leader, retrying..."],
          TickResult.completed)
    | some sid =>
        let t3 := t2 ++ [Action.sessionInfo sid]
        match env.session_node sid with
        | some node =>
            (t3 ++ [Action.setTag "slave", Action.ensureSlave node], TickResult.completed)
        | none =>
            (t3, TickResult.raised
              (env.cluster_name ++ " is leader-locked by invalid session ID: " ++ sid))

/-- Embedding of one iteration of the `while True` loop of `ConsulHandler.monitor`:
sleep, read coordinator-observed health; if unhealthy set tag `unhealthy` and
continue; else if the disable-flag file exists read the catalog tag, log the
transition, set tag `disabled` and continue; else obtain a session
(existing or created) and enter the acquire phase. -/
def tick (env : Env) : List Action × TickResult :=
  let t0 : List Action := [Action.sleep 2, Action.agentChecks]
  if is_healthy env.checks env.cluster_name then
    if env.disable_flag then
      let logPart : List Action :=
        if env.catalog_tag == some "disabled" then []
        else [Action.logMsg "Disabling service because the disable flag file exists"]
      (t0 ++ [Action.checkDisableFlag, Action.getTag] ++ logPart ++ [Action.setTag "disabled"],
        TickResult.completed)
    else
      let t1 := t0 ++ [Action.checkDisableFlag, Action.sessionList]
      match get_existing_session env.node_sessions env.cluster_name with
      | Except.error e => (t1, TickResult.raised e)
      | Except.ok (some s) => tickAcquirePhase env t1 s
      | Except.ok none =>
          let t2 := t1 ++ get_session_trace env.create_attempts
          match firstSuccess env.create_attempts with
          | none => (t2, TickResult.retryingSession)
          | some s => tickAcquirePhase env t2 s
  else
    (t0 ++ [Action.setTag "unhealthy"], TickResult.completed)

/-- Local agent state observed by `deregister` / `graceful_exit`: the names of
the services registered on the local agent and the sessions on this node. -/
structure ShutdownEnv where
  cluster_name : String
  services : List String
  node_sessions : List SessionEntry
  deriving DecidableEq, Repr

/-- Embedding of `ConsulHandler.deregister`: read the agent's service map; take no
further action when the cluster service is not registered; otherwise look up the
existing session, destroy it when present, then deregister the service. -/
def deregister (env : ShutdownEnv) : List Action × Except String Unit :=
  if env.services.contains env.cluster_name then
    let t := [Action.agentServices, Action.sessionList]
    match get_existing_session env.node_sessions env.cluster_name with
    | Except.error e => (t, Except.error e)
    | Except.ok (some s) =>
        (t ++ [Action.sessionDestroy s, Action.serviceDeregister], Except.ok ())
    | Except.ok none => (t ++ [Action.serviceDeregister], Except.ok ())
  else
    ([Action.agentServices], Except.ok ())

/-- Process outcome of the signal handler. -/
inductive ExitOutcome where
  | exited (code : Nat)
  | raised (msg : String)
  deriving DecidableEq, Repr

/-- Embedding of `ConsulHandler.graceful_exit`, installed by `monitor` as the
handler for SIGINT and SIGTERM: call `deregister`, then `sys.exit(0)`; an
exception out of `deregister` propagates instead of reaching the exit. -/
def graceful_exit (env : ShutdownEnv) : List Action × ExitOutcome :=
  match deregister env with
  | (t, Except.ok _) => (t, ExitOutcome.exited 0)
  | (t, Except.error e) => (t, ExitOutcome.raised e)

/-- A Python value as the HTTP layer sees it: the result of `json.dumps` on it
(`none` when serialization raises) and its `str` text. -/
structure PyVal where
  dumps : Option String
  str : String
  deriving DecidableEq, Repr

/-- JSON escaping of one character, for strings without control characters. -/
def jsonEscapeChar (c : Char) : String :=
  if c = Char.ofNat 34 then "\\\""
  else if c = Char.ofNat 92 then "\\\\"
  else String.singleton c

/-- Result of `json.dumps` on a Python `str` without control characters: the text
wrapped in double quotes with inner quotes and backslashes escaped. -/
def jsonDumpsStr (s : String) : String :=
  "\"" ++ String.join (s.toList.map jsonEscapeChar) ++ "\""

/-- A Python `str` value: `json.dumps` succeeds on it and `str` is the identity. -/
def pyString (s : String) : PyVal := { dumps := some (jsonDumpsStr s), str := s }

/-- Splitting of a character list on `/` (character 47), accumulating the
current segment in reverse: the embedding of Python `str.split` with a single
separator, where an empty string yields one empty segment. -/
def splitSlashAux : List Char → List Char → List String
  | [], acc => [String.mk acc.reverse]
  | c :: cs, acc =>
      if c = Char.ofNat 47 then String.mk acc.reverse :: splitSlashAux cs []
      else splitSlashAux cs (c :: acc)

/-- Embedding of `path.split('/')`. -/
def pathSegments (path : String) : List String := splitSlashAux path.toList []

/-- An HTTP response produced by the API server. -/
structure HTTPResponse where
  status : Nat
  contentType : String
  body : String
  deriving DecidableEq, Repr

/-- Embedding of `HTTPHandler.do_GET`.  The request path is split on `/` and the
leading empty segment dropped; an empty segment list hits the `send_error` early
return (modelled as `none`).  A first segment equal to `health` queries the
handler verdict; any other first segment yields `(False, 'Unsupported endpoint')`.
Status is 200 exactly when the verdict is ok, else 500; the body is the JSON
serialization of the message (or its raw text when serialization fails) plus a
newline, under Content-Type `application/json`. -/
def do_GET (path : String) (health_ok : Bool) (health_text : PyVal) :
    Option HTTPResponse :=
  let args := (pathSegments path).drop 1
  match args with
  | [] => none
  | arg0 :: _ =>
    let res : Bool × PyVal :=
      if arg0 = "health" then (health_ok, health_text)
      else (false, pyString "Unsupported endpoint")
    let status_code := if res.1 then 200 else 500
    let response_text :=
      (match res.2.dumps with
       | some j => j
       | none => res.2.str) ++ "\n"
    some { status := status_code, contentType := "application/json", body := response_text }

/-- A tick environment whose coordinator-observed service check is critical. -/
def envUnhealthy : Env :=
  { cluster_name := "mysql"
    checks := [("service:mysql", "critical")]
    disable_flag := false
    catalog_tag := none
    node_sessions := []
    create_attempts := []
    acquire_ok := false
    lock_session := none
    session_node := fun _ => none }

/-- A healthy tick environment with the disable-flag file present. -/
def envDisabled : Env :=
  { cluster_name := "mysql"
    checks := [("service:mysql", "passing")]
    disable_flag := true
    catalog_tag := some "slave"
    node_sessions := [{ name := "mysql", id := "sess1" }]
    create_attempts := []
    acquire_ok := false
    lock_session := none
    session_node := fun _ => none }

/-- A healthy tick environment with an existing session where the acquire succeeds. -/
def envMasterTick : Env :=
  { cluster_name := "mysql"
    checks := [("service:mysql", "passing")]
    disable_flag := false
    catalog_tag := none
    node_sessions := [{ name := "mysql", id := "sess1" }]
    create_attempts := []
    acquire_ok := true
    lock_session := none
    session_node := fun _ => none }

/-- A healthy tick environment where the acquire fails and the lock is held by a
session id that `session_info` cannot resolve. -/
def envStaleLock : Env :=
  { cluster_name := "mysql"
    checks := [("service:mysql", "passing")]
    disable_flag := false
    catalog_tag := none
    node_sessions := [{ name := "mysql", id := "sess1" }]
    create_attempts := []
    acquire_ok := false
    lock_session := some "deadbeef"
    session_node := fun _ => none }

/-- A healthy tick environment where the acquire fails and the lock entry has no
holding session at all. -/
def envNoHolder : Env :=
  { cluster_name := "mysql"
    checks := [("service:mysql", "passing")]
    disable_flag := false
    catalog_tag := none
    node_sessions := [{ name := "mysql", id := "sess1" }]
    create_attempts := []
    acquire_ok := false
    lock_session := none
    session_node := fun _ => none }

/-- A shutdown environment with the service registered and one leader session. -/
def envShutdown : ShutdownEnv :=
  { cluster_name := "mysql"
    services := ["mysql"]
    node_sessions := [{ name := "mysql", id := "sess1" }] }

/-- A shutdown environment where the service is absent from the agent's service
map while a leader session still exists. -/
def envShutdownAbsent : ShutdownEnv :=
  { cluster_name := "mysql"
    services := []
    node_sessions := [{ name := "mysql", id := "sess1" }] }

/-- The KV acquire attempt is always part of the acquire phase's trace,
whatever its outcome. -/
theorem kvAcquire_mem_acquirePhase (env : Env) (t : List Action) (s : String) :
    Action.kvAcquire (lockKey env.cluster_name) s ∈ (tickAcquirePhase env t s).1 := by
  unfold tickAcquirePhase
  by_cases h : env.acquire_ok
  · simp [h]
  · simp only [h, Bool.false_eq_true, if_false]
    cases env.lock_session with
    | none => simp
    | some sid =>
      cases hn : env.session_node sid with
      | none => simp [hn]
      | some node => simp [hn]

/-- C1: on every tick where the coordinator-observed health is not passing, the
tick completes (the loop just continues), the controller sets the service tag to
`unhealthy`, and the tick's trace contains no lock acquisition, no session
creation, and no `ensure_master` or `ensure_slave` call. -/
theorem claim_C1_unhealthy_skips_tick (env : Env)
    (h : is_healthy env.checks env.cluster_name = false) :
    (tick env).2 = TickResult.completed ∧
    Action.setTag "unhealthy" ∈ (tick env).1 ∧
    ∀ a ∈ (tick env).1, a.isKvAcquire = false ∧ a.isSessionCreate = false ∧
      a.isEnsureMaster = false ∧ a.isEnsureSlave = false := by
  have ht : tick env = ([Action.sleep 2, Action.agentChecks, Action.setTag "unhealthy"],
      TickResult.completed) := by
    simp [tick, h]
  rw [ht]
  exact ⟨rfl, by decide, by decide⟩

/-- C1 witness at a concrete unhealthy environment. -/
theorem claim_C1_witness :
    is_healthy envUnhealthy.checks envUnhealthy.cluster_name = false ∧
    (tick envUnhealthy).2 = TickResult.completed ∧
    Action.setTag "unhealthy" ∈ (tick envUnhealthy).1 :=
  ⟨by decide, (claim_C1_unhealthy_skips_tick envUnhealthy (by decide)).1,
    (claim_C1_unhealthy_skips_tick envUnhealthy (by decide)).2.1⟩

/-- C5: on every healthy tick with the disable-flag file present, the tick
completes with tag set to `disabled` and its trace contains no session listing,
no session creation, no lock acquisition and no handler role call; and on any
healthy tick without the flag on which a session is in hand, the trace does
contain a KV acquire on the leader key, so the agent contends again. -/
theorem claim_C5_disable_flag_skips_tick (env env2 : Env) (s : String)
    (h1 : is_healthy env.checks env.cluster_name = true)
    (h2 : env.disable_flag = true)
    (g1 : is_healthy env2.checks env2.cluster_name = true)
    (g2 : env2.disable_flag = false)
    (g3 : get_existing_session env2.node_sessions env2.cluster_name = Except.ok (some s)) :
    ((tick env).2 = TickResult.completed ∧
     Action.setTag "disabled" ∈ (tick env).1 ∧
     ∀ a ∈ (tick env).1, a.isKvAcquire = false ∧ a.isSessionCreate = false ∧
       a.isSessionList = false ∧ a.isEnsureMaster = false ∧ a.isEnsureSlave = false) ∧
    Action.kvAcquire (lockKey env2.cluster_name) s ∈ (tick env2).1 := by
  constructor
  · by_cases hc : env.catalog_tag == some "disabled"
    · have ht : tick env = ([Action.sleep 2, Action.agentChecks, Action.checkDisableFlag,
          Action.getTag, Action.setTag "disabled"], TickResult.completed) := by
        simp [tick, h1, h2, hc]
      rw [ht]
      exact ⟨rfl, by decide, by decide⟩
    · have ht : tick env = ([Action.sleep 2, Action.agentChecks, Action.checkDisableFlag,
          Action.getTag, Action.logMsg "Disabling service because the disable flag file exists",
          Action.setTag "disabled"], TickResult.completed) := by
        simp [tick, h1, h2, hc]
      rw [ht]
      exact ⟨rfl, by decide, by decide⟩
  · have ht : tick env2 = tickAcquirePhase env2 [Action.sleep 2, Action.agentChecks,
        Action.checkDisableFlag, Action.sessionList] s := by
      simp [tick, g1, g2, g3]
    rw [ht]
    exact kvAcquire_mem_acquirePhase env2 _ s

/-- C5 witness: a concrete disabled tick, and re-contention at a concrete healthy
tick without the flag. -/
theorem claim_C5_witness :
    (tick envDisabled).2 = TickResult.completed ∧
    Action.setTag "disabled" ∈ (tick envDisabled).1 ∧
    Action.kvAcquire "lock/mysql/leader" "sess1" ∈ (tick envMasterTick).1 := by
  have h := claim_C5_disable_flag_skips_tick envDisabled envMasterTick "sess1"
    (by decide) rfl (by decide) rfl (by decide)
  exact ⟨h.1.1, h.1.2.1, h.2⟩

/-- C2 counterexample: on a concrete healthy tick whose acquire succeeds, the
`set_tag master` call comes before the `ensure_master` call, so the handler's
role action does not precede the tag update as the claim states. -/
theorem claim_C2_counterexample :
    (tick envMasterTick).1 = [Action.sleep 2, Action.agentChecks, Action.checkDisableFlag,
      Action.sessionList, Action.kvAcquire "lock/mysql/leader" "sess1",
      Action.setTag "master", Action.ensureMaster] ∧
    ¬ ((tick envMasterTick).1.indexOf Action.ensureMaster <
        (tick envMasterTick).1.indexOf (Action.setTag "master")) := by decide

/-- C2 (amended): within one healthy, non-disabled tick with an existing session,
the order is fixed as health check, disable check, session obtainment, lock
acquisition attempt, tag update, and then the handler's role action — the tag
update precedes `ensure_master` (resp. `ensure_slave`). -/
theorem claim_C2_tick_order (env : Env) (s : String)
    (h1 : is_healthy env.checks env.cluster_name = true)
    (h2 : env.disable_flag = false)
    (h3 : get_existing_session env.node_sessions env.cluster_name = Except.ok (some s)) :
    (env.acquire_ok = true →
      (tick env).1 = [Action.sleep 2, Action.agentChecks, Action.checkDisableFlag,
        Action.sessionList, Action.kvAcquire (lockKey env.cluster_name) s,
        Action.setTag "master", Action.ensureMaster]) ∧
    (∀ sid node, env.acquire_ok = false → env.lock_session = some sid →
      env.session_node sid = some node →
      (tick env).1 = [Action.sleep 2, Action.agentChecks, Action.checkDisableFlag,
        Action.sessionList, Action.kvAcquire (lockKey env.cluster_name) s,
        Action.kvGet (lockKey env.cluster_name), Action.sessionInfo sid,
        Action.setTag "slave", Action.ensureSlave node]) := by
  have ht : tick env = tickAcquirePhase env [Action.sleep 2, Action.agentChecks,
      Action.checkDisableFlag, Action.sessionList] s := by
    simp [tick, h1, h2, h3]
  constructor
  · intro ha
    rw [ht]
    simp [tickAcquirePhase, ha]
  · intro sid node ha hl hn
    rw [ht]
    simp [tickAcquirePhase, ha, hl, hn]

/-- C2 witness at a concrete healthy master tick. -/
theorem claim_C2_witness :
    (tick envMasterTick).1 = [Action.sleep 2, Action.agentChecks, Action.checkDisableFlag,
      Action.sessionList, Action.kvAcquire (lockKey envMasterTick.cluster_name) "sess1",
      Action.setTag "master", Action.ensureMaster] :=
  (claim_C2_tick_order envMasterTick "sess1" (by decide) rfl (by decide)).1 rfl

/-- C3 counterexample: on a concrete tick where the acquire fails and the lock is
held by a session id that resolves to no node, the tick raises (the exception
propagates out of the loop) instead of logging and continuing. -/
theorem claim_C3_counterexample :
    (tick envStaleLock).2 =
      TickResult.raised "mysql is leader-locked by invalid session ID: deadbeef" ∧
    (tick envStaleLock).2 ≠ TickResult.completed := by decide

/-- C3 (amended): when the acquire fails and the lock entry has no holding
session, the controller logs and completes the tick with no tag change and no
handler call; but when the lock is held by a session id that `session_info`
cannot resolve, `get_leader` raises and the exception propagates out of the
control loop. -/
theorem claim_C3_unresolvable_holder (env : Env) (s : String)
    (h1 : is_healthy env.checks env.cluster_name = true)
    (h2 : env.disable_flag = false)
    (h3 : get_existing_session env.node_sessions env.cluster_name = Except.ok (some s))
    (h4 : env.acquire_ok = false) :
    (env.lock_session = none →
      (tick env).2 = TickResult.completed ∧
      Action.logMsg "Unable to lock and unable to determine leader, retrying..." ∈ (tick env).1 ∧
      ∀ a ∈ (tick env).1, a.isSetTag = false ∧ a.isEnsureMaster = false ∧
        a.isEnsureSlave = false) ∧
    (∀ sid, env.lock_session = some sid → env.session_node sid = none →
      (tick env).2 = TickResult.raised
        (env.cluster_name ++ " is leader-locked by invalid session ID: " ++ sid)) := by
  have ht : tick env = tickAcquirePhase env [Action.sleep 2, Action.agentChecks,
      Action.checkDisableFlag, Action.sessionList] s := by
    simp [tick, h1, h2, h3]
  constructor
  · intro hl
    rw [ht]
    have hp : tickAcquirePhase env [Action.sleep 2, Action.agentChecks,
        Action.checkDisableFlag, Action.sessionList] s =
        ([Action.sleep 2, Action.agentChecks, Action.checkDisableFlag, Action.sessionList,
          Action.kvAcquire (lockKey env.cluster_name) s, Action.kvGet (lockKey env.cluster_name),
          Action.logMsg "Unable to lock and unable to determine leader, retrying..."],
          TickResult.completed) := by
      simp [tickAcquirePhase, h4, hl]
    rw [hp]
    refine ⟨rfl, by simp, ?_⟩
    intro a ha
    simp only [List.mem_cons, List.not_mem_nil, or_false] at ha
    rcases ha with rfl | rfl | rfl | rfl | rfl | rfl | rfl <;> exact ⟨rfl, rfl, rfl⟩
  · intro sid hl hn
    rw [ht]
    simp [tickAcquirePhase, h4, hl, hn]

/-- C3 witness: the no-holder branch at a concrete environment completes and
stays roleless. -/
theorem claim_C3_witness :
    (tick envNoHolder).2 = TickResult.completed ∧
    Action.logMsg "Unable to lock and unable to determine leader, retrying..."
      ∈ (tick envNoHolder).1 := by
  have h := (claim_C3_unresolvable_holder envNoHolder "sess1"
    (by decide) rfl (by decide) rfl).1 rfl
  exact ⟨h.1, h.2.1⟩

/-- C4 counterexample: at a concrete shutdown with the service registered and a
live session, the session destruction comes before the service deregistration,
so the deregistration is not observed before the session destruction as the
claim states. -/
theorem claim_C4_counterexample :
    (graceful_exit envShutdown).1 = [Action.agentServices, Action.sessionList,
      Action.sessionDestroy "sess1", Action.serviceDeregister] ∧
    ¬ ((graceful_exit envShutdown).1.indexOf Action.serviceDeregister <
        (graceful_exit envShutdown).1.indexOf (Action.sessionDestroy "sess1")) := by decide

/-- C4 (amended): on SIGINT/SIGTERM the installed handler runs `deregister` and
then exits with status 0; when the service is registered and a session exists it
destroys the session first and then deregisters the service — session
destruction is observed before deregistration, both before process exit. -/
theorem claim_C4_shutdown_order (env : ShutdownEnv) (s : String)
    (h1 : env.services.contains env.cluster_name = true)
    (h2 : get_existing_session env.node_sessions env.cluster_name = Except.ok (some s)) :
    graceful_exit env = ([Action.agentServices, Action.sessionList,
      Action.sessionDestroy s, Action.serviceDeregister], ExitOutcome.exited 0) := by
  have h1m : env.cluster_name ∈ env.services := by simpa using h1
  have hd : deregister env = ([Action.agentServices, Action.sessionList,
      Action.sessionDestroy s, Action.serviceDeregister], Except.ok ()) := by
    simp [deregister, h1m, h2]
  simp [graceful_exit, hd]

/-- C4 witness at a concrete registered shutdown environment. -/
theorem claim_C4_witness :
    graceful_exit envShutdown = ([Action.agentServices, Action.sessionList,
      Action.sessionDestroy "sess1", Action.serviceDeregister], ExitOutcome.exited 0) :=
  claim_C4_shutdown_order envShutdown "sess1" rfl (by decide)

/-- C10: when the cluster service is absent from the local agent's service map,
`deregister` only reads the service map and returns — no session listing, no
session destruction and no service deregistration occur — and the signal handler
still exits 0, so a live session survives graceful shutdown. -/
theorem claim_C10_deregister_noop (env : ShutdownEnv)
    (h : env.services.contains env.cluster_name = false) :
    deregister env = ([Action.agentServices], Except.ok ()) ∧
    graceful_exit env = ([Action.agentServices], ExitOutcome.exited 0) ∧
    ∀ a ∈ (graceful_exit env).1, a.isSessionDestroy = false ∧
      a.isServiceDeregister = false ∧ a.isSessionList = false := by
  have hm : env.cluster_name ∉ env.services := by simpa using h
  have hd : deregister env = ([Action.agentServices], Except.ok ()) := by
    simp [deregister, hm]
  have hg : graceful_exit env = ([Action.agentServices], ExitOutcome.exited 0) := by
    simp [graceful_exit, hd]
  rw [hg]
  exact ⟨hd, rfl, by decide⟩

/-- C10 witness: a concrete shutdown environment with a live session but no
registration is a no-op apart from the service-map read. -/
theorem claim_C10_witness :
    deregister envShutdownAbsent = ([Action.agentServices], Except.ok ()) ∧
    graceful_exit envShutdownAbsent = ([Action.agentServices], ExitOutcome.exited 0) :=
  ⟨(claim_C10_deregister_noop envShutdownAbsent rfl).1,
    (claim_C10_deregister_noop envShutdownAbsent rfl).2.1⟩

/-- C6: a GET on `/health` answers 200 when the handler verdict is ok and 500
otherwise, with Content-Type application/json and a body that is the JSON
serialization of the message plus a newline, falling back to the raw message
text plus a newline when serialization fails; in particular the concrete probe
example from the specification holds. -/
theorem claim_C6_health_response (health_ok : Bool) (msg : PyVal) :
    do_GET "/health" health_ok msg = some
      { status := if health_ok then 200 else 500
        contentType := "application/json"
        body := (match msg.dumps with
                 | some j => j
                 | none => msg.str) ++ "\n" } ∧
    do_GET "/health" true (pyString "MySQL serving required databases: mysql") = some
      { status := 200, contentType := "application/json"
        body := "\"MySQL serving required databases: mysql\"\n" } := by
  constructor
  · rfl
  · rfl

/-- C7: the existing-session lookup returns the session id when exactly one
session named after the cluster exists on the node, returns none when zero such
sessions exist, and raises when more than one exists. -/
theorem claim_C7_existing_session_cases (node_sessions : List SessionEntry)
    (cluster_name : String) :
    get_existing_session node_sessions cluster_name =
      match node_sessions.filter (fun x => x.name == cluster_name) with
      | [] => Except.ok none
      | [s] => Except.ok (some s.id)
      | _ :: _ :: _ =>
          Except.error ("Multiple " ++ cluster_name ++ " leader sessions found") := by
  cases h : node_sessions.filter (fun x => x.name == cluster_name) with
  | nil => simp [get_existing_session, h]
  | cons a t =>
    cases t with
    | nil => simp [get_existing_session, h]
    | cons b u => simp [get_existing_session, h]

/-- The retry loop's first success skips any leading failed attempts. -/
theorem firstSuccess_append_errors (errs : List (Except String String))
    (herrs : ∀ a ∈ errs, ∃ e, a = Except.error e) (s : String)
    (rest : List (Except String String)) :
    firstSuccess (errs ++ Except.ok s :: rest) = some s := by
  induction errs with
  | nil => rfl
  | cons a t ih =>
    obtain ⟨e, rfl⟩ := herrs a (List.mem_cons_self a t)
    simpa [firstSuccess] using ih (fun b hb => herrs b (List.mem_cons_of_mem _ hb))

/-- The retry loop's trace is one create+log+backoff block per failed attempt,
then the final successful create. -/
theorem get_session_trace_append_errors (errs : List (Except String String))
    (herrs : ∀ a ∈ errs, ∃ e, a = Except.error e) (s : String)
    (rest : List (Except String String)) :
    get_session_trace (errs ++ Except.ok s :: rest) =
      (errs.map failTraceOf).flatten ++ [Action.sessionCreate] := by
  induction errs with
  | nil => rfl
  | cons a t ih =>
    obtain ⟨e, rfl⟩ := herrs a (List.mem_cons_self a t)
    simp [get_session_trace, failTraceOf,
      ih (fun b hb => herrs b (List.mem_cons_of_mem _ hb))]

/-- C8: with no existing session, `get_session` returns the first successful
creation even after arbitrarily many failed attempts, each failed attempt logs
and backs off 2 seconds before the next create, no transient creation error ever
propagates to the caller, and an existing session is returned as is. -/
theorem claim_C8_session_retry (node_sessions : List SessionEntry) (cluster_name : String)
    (errs rest : List (Except String String)) (s : String)
    (h0 : get_existing_session node_sessions cluster_name = Except.ok none)
    (herrs : ∀ a ∈ errs, ∃ e, a = Except.error e) :
    get_session node_sessions cluster_name (errs ++ Except.ok s :: rest) =
      Except.ok (some s) ∧
    get_session_trace (errs ++ Except.ok s :: rest) =
      (errs.map failTraceOf).flatten ++ [Action.sessionCreate] ∧
    (∀ attempts e, get_session node_sessions cluster_name attempts ≠ Except.error e) ∧
    (∀ sessions2 s2 attempts,
      get_existing_session sessions2 cluster_name = Except.ok (some s2) →
      get_session sessions2 cluster_name attempts = Except.ok (some s2)) := by
  refine ⟨?_, get_session_trace_append_errors errs herrs s rest, ?_, ?_⟩
  · simp [get_session, h0, firstSuccess_append_errors errs herrs s rest]
  · intro attempts e
    simp [get_session, h0]
  · intro sessions2 s2 attempts h
    simp [get_session, h]

/-- C8 witness: one failed creation attempt, then a successful one. -/
theorem claim_C8_witness :
    get_session [] "mysql" [Except.error "boom", Except.ok "sessNew"] =
      Except.ok (some "sessNew") ∧
    get_session_trace [Except.error "boom", Except.ok "sessNew"] =
      [Action.sessionCreate, Action.logMsg "Error creating session: boom",
        Action.sleep 2, Action.sessionCreate] := by
  have h := claim_C8_session_retry [] "mysql" [Except.error "boom"] [] "sessNew"
    (by decide) (fun a ha => ⟨"boom", by simpa using ha⟩)
  exact ⟨h.1, by simpa [failTraceOf] using h.2.1⟩

/-- C9 counterexample: the path `/health/extra` is not `/health`, yet with an ok
verdict the server answers 200 with the health body rather than the claimed 500
Unsupported endpoint response — routing looks only at the first path segment. -/
theorem claim_C9_counterexample :
    "/health/extra" ≠ "/health" ∧
    do_GET "/health/extra" true (pyString "ok") = some
      { status := 200, contentType := "application/json", body := "\"ok\"\n" } := by
  exact ⟨by decide, rfl⟩

/-- C9 (amended): every GET whose first path segment is not `health` is answered
with status 500, Content-Type application/json, and the JSON-encoded
`Unsupported endpoint` message plus a newline. -/
theorem claim_C9_unknown_path (path : String) (health_ok : Bool) (msg : PyVal)
    (arg0 : String) (rest : List String)
    (h1 : (pathSegments path).drop 1 = arg0 :: rest)
    (h2 : arg0 ≠ "health") :
    do_GET path health_ok msg = some
      { status := 500, contentType := "application/json",
        body := "\"Unsupported endpoint\"\n" } := by
  unfold do_GET
  rw [h1]
  simp only [if_neg h2]
  rfl

/-- C9 witness at the concrete unknown path `/foo`. -/
theorem claim_C9_witness :
    do_GET "/foo" true (pyString "ok") = some
      { status := 500, contentType := "application/json",
        body := "\"Unsupported endpoint\"\n" } :=
  claim_C9_unknown_path "/foo" true (pyString "ok") "foo" [] rfl (by decide)

end ConsulFailover
